import Mathlib

/-!
Verification of the OSB complaints bot (`bot.py`) against its specification.

The SQLite database is modelled as an explicit `DB` value; each table is a
list of rows with the columns the code reads and writes.  Every handler that
touches the database is translated to a pure function from `DB` (plus its
inputs) to `DB` together with the outcome it reports to the caller.  The
external Telegram delivery and edit primitives are passed in as functions
(`deliver : Int → Option Nat`, returning a message id on success, and
`edit : Int → Nat → Bool`), mirroring the injected best-effort calls in the
code, where a raised exception is caught per recipient.
-/

namespace OsbBot

/-- A row of the `complaints` table: the columns the handlers use.
`status` is a TEXT column with DEFAULT `'pending'`; `accepted_by` records the
resolver and is NULL until resolution. -/
structure Complaint where
  user_id : Int
  username : Option String
  fio : String
  officer_info : String
  violation : String
  media_file_id : Option String
  media_type : Option String
  status : String
  accepted_by : Option Int
deriving Repr, DecidableEq

/-- A row of the `employees` table.  `user_id` is nullable (bound lazily on
first contact); `registered` is the INTEGER 0/1 completeness flag. -/
structure Employee where
  user_id : Option Int
  username : String
  fio : Option String
  position : Option String
  rank : Option String
  nickname : Option String
  registered : Bool
deriving Repr, DecidableEq

/-- A row of the `blocked_users` table (primary key `user_id`). -/
structure BlockedUser where
  user_id : Int
  username : Option String
deriving Repr, DecidableEq

/-- The database: the four tables created by `init_db`, plus the AUTOINCREMENT
counter for `complaints.id`.  A `complaint_messages` row is
`(complaint_id, chat_id, message_id)`. -/
structure DB where
  complaints : List (Nat × Complaint)
  blocked_users : List BlockedUser
  employees : List Employee
  complaint_messages : List (Nat × Int × Nat)
  next_id : Nat
deriving Repr, DecidableEq

/-- The empty database produced by `init_db` on a fresh file. -/
def initDB : DB :=
  { complaints := [], blocked_users := [], employees := [],
    complaint_messages := [], next_id := 1 }

/-- Python truthiness of a nullable integer column: `None` and `0` are falsy
(the code writes `if not emp_uid:` and `if r[0]`). -/
def truthy : Option Int → Bool
  | none => false
  | some v => v != 0

/-- `is_blocked`: membership of `user_id` in `blocked_users`. -/
def is_blocked (db : DB) (uid : Int) : Bool :=
  db.blocked_users.any (fun b => b.user_id == uid)

/-- `is_registered_employee`: `SELECT 1 FROM employees WHERE user_id=? AND
registered=1`. -/
def is_registered_employee (db : DB) (uid : Int) : Bool :=
  db.employees.any (fun e => e.user_id == some uid && e.registered)

/-- `is_staff`: the administrator or a registered employee. -/
def is_staff (admin : Int) (db : DB) (uid : Int) : Bool :=
  uid == admin || is_registered_employee db uid

/-- `get_all_recipient_ids`: `[ADMIN_ID]` extended with
`SELECT user_id FROM employees WHERE registered=1 AND user_id IS NOT NULL`,
keeping only truthy ids (`ids.extend(r[0] for r in rows if r[0])`). -/
def get_all_recipient_ids (admin : Int) (db : DB) : List Int :=
  admin :: db.employees.filterMap (fun e =>
    match e.user_id with
    | some v => if e.registered && v != 0 then some v else none
    | none => none)

/-- The per-recipient loop of `send_complaint_to_all`: try to deliver to each
recipient in turn; on success append a `(complaint_id, chat_id, message_id)`
row, on failure (exception caught and logged) continue with the rest. -/
def broadcast_loop (deliver : Int → Option Nat) (cid : Nat) :
    List Int → List (Nat × Int × Nat)
  | [] => []
  | rid :: rest =>
    match deliver rid with
    | some mid => (cid, rid, mid) :: broadcast_loop deliver cid rest
    | none => broadcast_loop deliver cid rest

/-- `send_complaint_to_all`: run the delivery loop, then insert all collected
rows into `complaint_messages` before returning. -/
def send_complaint_to_all (deliver : Int → Option Nat) (cid : Nat)
    (recipients : List Int) (db : DB) : DB :=
  { db with complaint_messages :=
      db.complaint_messages ++ broadcast_loop deliver cid recipients }

/-- The per-reference loop of `invalidate_complaint_messages`: attempt the
edit on every row; the `try/except: pass` is modelled by recording the edit's
outcome and continuing regardless. -/
def retract_loop (edit : Int → Nat → Bool) :
    List (Int × Nat) → List ((Int × Nat) × Bool)
  | [] => []
  | r :: rs => (r, edit r.1 r.2) :: retract_loop edit rs

/-- `invalidate_complaint_messages`: read all persisted `(chat_id, message_id)`
references for the complaint, then attempt an edit (removing the inline
keyboard) on each; returns the attempts with their outcomes.  The database is
only read.  The function is total: no failure escapes to the caller. -/
def invalidate_complaint_messages (edit : Int → Nat → Bool) (cid : Nat)
    (db : DB) : List ((Int × Nat) × Bool) :=
  retract_loop edit
    ((db.complaint_messages.filter (fun r => r.1 == cid)).map (fun r => r.2))

/-- `SELECT ... FROM complaints WHERE id=?` followed by `fetchone`:
the first row with the given primary key. -/
def lookupComplaint (db : DB) (cid : Nat) : Option Complaint :=
  (db.complaints.find? (fun p => p.1 == cid)).map Prod.snd

/-- `UPDATE complaints SET ... WHERE id=?`: rewrite every row whose id
matches (the id is the primary key). -/
def updateComplaint (db : DB) (cid : Nat) (f : Complaint → Complaint) : DB :=
  { db with complaints :=
      db.complaints.map (fun p => if p.1 == cid then (p.1, f p.2) else p) }

/-- `INSERT OR IGNORE INTO blocked_users (user_id, username)`: no-op when the
primary key is already present. -/
def insertOrIgnoreBlocked (db : DB) (uid : Int) (uname : Option String) : DB :=
  if db.blocked_users.any (fun b => b.user_id == uid) then db
  else { db with blocked_users := db.blocked_users ++ [⟨uid, uname⟩] }

/-- Outcome reported by the accept/block callbacks (and, mapped, by reject):
`noAccess` is the "Нет доступа" alert, `notFound` "Жалоба не найдена",
`alreadyResolved` "Эта жалоба уже обработана", and `resolved submitter` the
successful terminal transition (the submitter id is kept for the direct
notification that follows). -/
inductive ResolveOutcome where
  | noAccess
  | notFound
  | alreadyResolved
  | resolved (submitter : Int)
deriving Repr, DecidableEq

/-- `accept_complaint`: staff gate, then read `(user_id, status)`; a missing
row or a non-pending status answers without writing; otherwise
`UPDATE complaints SET status='accepted', accepted_by=? WHERE id=?`. -/
def accept_complaint (admin actor : Int) (cid : Nat) (db : DB) :
    DB × ResolveOutcome :=
  if !is_staff admin db actor then (db, .noAccess)
  else
    match lookupComplaint db cid with
    | none => (db, .notFound)
    | some c =>
      if c.status != "pending" then (db, .alreadyResolved)
      else
        (updateComplaint db cid
          (fun x => { x with status := "accepted", accepted_by := some actor }),
         .resolved c.user_id)

/-- `block_user_callback`: staff gate, read `(user_id, username, status)`;
when still pending, insert-or-ignore the submitter into `blocked_users` and
`UPDATE complaints SET status='blocked', accepted_by=? WHERE id=?` in the
same transaction. -/
def block_user_callback (admin actor : Int) (cid : Nat) (db : DB) :
    DB × ResolveOutcome :=
  if !is_staff admin db actor then (db, .noAccess)
  else
    match lookupComplaint db cid with
    | none => (db, .notFound)
    | some c =>
      if c.status != "pending" then (db, .alreadyResolved)
      else
        (updateComplaint (insertOrIgnoreBlocked db c.user_id c.username) cid
          (fun x => { x with status := "blocked", accepted_by := some actor }),
         .resolved c.user_id)

/-- Outcome of `reject_reason`: `notStaff` clears the form state silently;
`rejected submitter reason` is the successful transition, carrying the
submitter id and the reason text forwarded to them. -/
inductive RejectOutcome where
  | notStaff
  | notFound
  | alreadyProcessed
  | rejected (submitter : Int) (reason : String)
deriving Repr, DecidableEq

/-- `reject_reason`: the handler that receives the reason text for the
complaint id stored in the form state.  Staff gate, read
`(user_id, status)`; when still pending,
`UPDATE complaints SET status='rejected', accepted_by=? WHERE id=?`.
The reason text is used as given: the code never validates it. -/
def reject_reason (admin actor : Int) (cid : Nat) (reason : String)
    (db : DB) : DB × RejectOutcome :=
  if !is_staff admin db actor then (db, .notStaff)
  else
    match lookupComplaint db cid with
    | none => (db, .notFound)
    | some c =>
      if c.status != "pending" then (db, .alreadyProcessed)
      else
        (updateComplaint db cid
          (fun x => { x with status := "rejected", accepted_by := some actor }),
         .rejected c.user_id reason)

/-- The free-form fields collected by the complaint form. -/
structure ComplaintData where
  fio : String
  officer_info : String
  violation : String
deriving Repr, DecidableEq

/-- `_submit_complaint`: insert the complaint row (status takes the column
DEFAULT `'pending'`, `accepted_by` stays NULL) and return the assigned
AUTOINCREMENT id.  No block check happens here. -/
def submit_complaint (uid : Int) (username : Option String)
    (d : ComplaintData) (media : Option (String × String)) (db : DB) :
    DB × Nat :=
  let c : Complaint :=
    { user_id := uid, username := username, fio := d.fio,
      officer_info := d.officer_info, violation := d.violation,
      media_file_id := media.map Prod.fst, media_type := media.map Prod.snd,
      status := "pending", accepted_by := none }
  ({ db with complaints := db.complaints ++ [(db.next_id, c)],
             next_id := db.next_id + 1 },
   db.next_id)

/-- `cmd_complaint`: whether the form starts (the only gate is the block
check). -/
def cmd_complaint_allows (db : DB) (uid : Int) : Bool :=
  !is_blocked db uid

/-- The gate repeated by `process_fio`, `process_officer_info` and
`process_violation`: a blocked user's in-progress form is aborted. -/
def form_step_allows (db : DB) (uid : Int) : Bool :=
  !is_blocked db uid

/-- `skip_media`: the `/skip` finalization.  It calls `_submit_complaint`
directly, with no block check. -/
def skip_media (uid : Int) (username : Option String) (d : ComplaintData)
    (db : DB) : DB × Option Nat :=
  let r := submit_complaint uid username d none db
  (r.1, some r.2)

/-- `process_media`: the finalization with an attached photo/video/document;
it checks the block list before submitting. -/
def process_media (uid : Int) (username : Option String) (d : ComplaintData)
    (media : String × String) (db : DB) : DB × Option Nat :=
  if is_blocked db uid then (db, none)
  else
    let r := submit_complaint uid username d (some media) db
    (r.1, some r.2)

/-- `cmd_complaints`: staff-only listing of the pending complaints; `none`
when the caller is not staff (the handler returns silently). -/
def cmd_complaints (admin uid : Int) (db : DB) :
    Option (List (Nat × Complaint)) :=
  if is_staff admin db uid then
    some (db.complaints.filter (fun p => p.2.status == "pending"))
  else none

/-- The database effect of `cmd_start` for a non-admin, non-blocked caller
with a username: look the username up in `employees`; when the row exists
and its `user_id` is falsy, `UPDATE employees SET user_id=? WHERE
username=?`. -/
def cmd_start_link (admin uid : Int) (username : String) (db : DB) : DB :=
  if uid == admin then db
  else if is_blocked db uid then db
  else if username == "" then db
  else
    match db.employees.find? (fun e => e.username == username) with
    | none => db
    | some e =>
      if truthy e.user_id then db
      else
        { db with employees := db.employees.map (fun x =>
            if x.username == username then { x with user_id := some uid }
            else x) }

/-- The database effect of `cmd_register`: the admin returns silently; a
caller matching no employee row (`WHERE username=? OR user_id=?`) is turned
away; otherwise, when the caller has a username, `UPDATE employees SET
user_id=? WHERE username=? AND (user_id IS NULL OR user_id=0)` and the
registration form starts (`true`). -/
def cmd_register_start (admin uid : Int) (username : String) (db : DB) :
    DB × Bool :=
  if uid == admin then (db, false)
  else if !db.employees.any (fun e =>
      e.username == username || e.user_id == some uid) then (db, false)
  else
    (if username != "" then
       { db with employees := db.employees.map (fun e =>
           if e.username == username && !truthy e.user_id then
             { e with user_id := some uid }
           else e) }
     else db,
     true)

/-- The profile collected by the four registration steps. -/
structure Profile where
  fio : String
  position : String
  rank : String
  nickname : String
deriving Repr, DecidableEq

/-- `reg_nickname`, the final registration step: `UPDATE employees SET
fio=?, position=?, rank=?, nickname=?, registered=1, user_id=? WHERE
username=? OR user_id=?`.  Every matching row is rewritten and `user_id` is
set unconditionally. -/
def reg_nickname (uid : Int) (username : String) (p : Profile) (db : DB) :
    DB :=
  { db with employees := db.employees.map (fun e =>
      if e.username == username || e.user_id == some uid then
        { e with fio := some p.fio, position := some p.position,
                 rank := some p.rank, nickname := some p.nickname,
                 registered := true, user_id := some uid }
      else e) }

/-- The registration flow end to end: `cmd_register` admits or turns the
caller away, then the four form steps collect the profile and `reg_nickname`
writes it.  Returns whether registration completed. -/
def completeRegistration (admin uid : Int) (username : String) (p : Profile)
    (db : DB) : DB × Bool :=
  let r := cmd_register_start admin uid username db
  if r.2 then (reg_nickname uid username p r.1, true) else (r.1, false)

/-- `process_add_employee` (admin only): reject an empty username or a
duplicate; otherwise insert an unbound, unregistered row.  The username
argument stands for the already-normalized text
(`message.text.lstrip("@").lower().strip()`). -/
def process_add_employee (admin actor : Int) (username : String) (db : DB) :
    DB × Bool :=
  if actor != admin then (db, false)
  else if username == "" then (db, false)
  else if db.employees.any (fun e => e.username == username) then (db, false)
  else
    ({ db with employees := db.employees ++
        [{ user_id := none, username := username, fio := none,
           position := none, rank := none, nickname := none,
           registered := false }] },
     true)

/-- `delete_employee` (admin only): `DELETE FROM employees WHERE
username=?`. -/
def delete_employee (admin actor : Int) (username : String) (db : DB) : DB :=
  if actor != admin then db
  else { db with employees :=
          db.employees.filter (fun e => e.username != username) }

/-- `unblock_user` (admin only): `DELETE FROM blocked_users WHERE
user_id=?`. -/
def unblock_user (admin actor uid : Int) (db : DB) : DB :=
  if actor != admin then db
  else { db with blocked_users :=
          db.blocked_users.filter (fun b => b.user_id != uid) }

/-- One database mutation performed by some handler of the bot, with
arbitrary inputs. -/
inductive Step (admin : Int) : DB → DB → Prop where
  | submit (uid : Int) (username : Option String) (d : ComplaintData)
      (media : Option (String × String)) (db : DB) :
      Step admin db (submit_complaint uid username d media db).1
  | accept (actor : Int) (cid : Nat) (db : DB) :
      Step admin db (accept_complaint admin actor cid db).1
  | reject (actor : Int) (cid : Nat) (reason : String) (db : DB) :
      Step admin db (reject_reason admin actor cid reason db).1
  | block (actor : Int) (cid : Nat) (db : DB) :
      Step admin db (block_user_callback admin actor cid db).1
  | startLink (uid : Int) (username : String) (db : DB) :
      Step admin db (cmd_start_link admin uid username db)
  | registerStart (uid : Int) (username : String) (db : DB) :
      Step admin db (cmd_register_start admin uid username db).1
  | regNick (uid : Int) (username : String) (p : Profile) (db : DB) :
      Step admin db (reg_nickname uid username p db)
  | addEmp (actor : Int) (username : String) (db : DB) :
      Step admin db (process_add_employee admin actor username db).1
  | delEmp (actor : Int) (username : String) (db : DB) :
      Step admin db (delete_employee admin actor username db)
  | unblock (actor uid : Int) (db : DB) :
      Step admin db (unblock_user admin actor uid db)
  | broadcast (deliver : Int → Option Nat) (cid : Nat)
      (recipients : List Int) (db : DB) :
      Step admin db (send_complaint_to_all deliver cid recipients db)

/-- Databases reachable from a fresh `init_db` file through the bot's
handlers. -/
inductive Reachable (admin : Int) : DB → Prop where
  | init : Reachable admin initDB
  | step {db db' : DB} : Reachable admin db → Step admin db db' →
      Reachable admin db'

/-- The lifecycle invariant on the complaints table: every row's status is
one of the four values, the resolver is unset exactly while the status is
`pending`, and set once the status is terminal. -/
def statusInv (db : DB) : Prop :=
  ∀ p ∈ db.complaints,
    (p.2.status = "pending" ∨ p.2.status = "accepted" ∨
     p.2.status = "rejected" ∨ p.2.status = "blocked") ∧
    (p.2.status = "pending" → p.2.accepted_by = none) ∧
    (p.2.status ≠ "pending" → p.2.accepted_by ≠ none)

/-- The successful deliveries of a broadcast, as persisted rows. -/
def successRows (deliver : Int → Option Nat) (cid : Nat)
    (recipients : List Int) : List (Nat × Int × Nat) :=
  recipients.filterMap (fun rid => (deliver rid).map (fun m => (cid, rid, m)))

/-- The read phase of `accept_complaint`: `SELECT user_id, status FROM
complaints WHERE id=?` followed by the application-level checks on the row.
In the code this `await` point is separated from the write that follows. -/
def acceptReadCheck (db : DB) (cid : Nat) : Option (Int × String) :=
  (lookupComplaint db cid).map (fun c => (c.user_id, c.status))

/-- The write phase of `accept_complaint`: `UPDATE complaints SET
status='accepted', accepted_by=? WHERE id=?`.  The UPDATE carries no
`status='pending'` condition: it rewrites the row whatever its stored
status is at write time. -/
def acceptWrite (actor : Int) (cid : Nat) (db : DB) : DB :=
  updateComplaint db cid
    (fun c => { c with status := "accepted", accepted_by := some actor })

/-- One of the three resolution actions a staff member can take. -/
inductive StaffAction where
  | accept
  | reject (reason : String)
  | block
deriving Repr, DecidableEq

/-- One complete resolve attempt (the whole handler, run without
interleaving), with reject's outcome mapped onto the shared outcome type. -/
def resolveStep (admin actor : Int) (cid : Nat) (a : StaffAction) (db : DB) :
    DB × ResolveOutcome :=
  match a with
  | .accept => accept_complaint admin actor cid db
  | .block => block_user_callback admin actor cid db
  | .reject r =>
    let p := reject_reason admin actor cid r db
    (p.1,
     match p.2 with
     | .notStaff => .noAccess
     | .notFound => .notFound
     | .alreadyProcessed => .alreadyResolved
     | .rejected u _ => .resolved u)

/-- A sequence of resolve attempts on the same complaint, each attempt run
to completion before the next starts; returns the final database and the
outcome each attempt reported. -/
def runResolves (admin : Int) (cid : Nat) :
    List (Int × StaffAction) → DB → DB × List ResolveOutcome
  | [], db => (db, [])
  | (actor, a) :: rest, db =>
    let p := resolveStep admin actor cid a db
    let q := runResolves admin cid rest p.1
    (q.1, p.2 :: q.2)

/-- A database holding one already-accepted complaint (submitter 5,
resolver 9). -/
def exResolvedDB : DB :=
  { complaints := [(1,
      { user_id := 5, username := some "u", fio := "f", officer_info := "o",
        violation := "v", media_file_id := none, media_type := none,
        status := "accepted", accepted_by := some 9 })],
    blocked_users := [], employees := [], complaint_messages := [],
    next_id := 2 }

/-- A directory in which the administrator (id 1) is also a registered
employee. -/
def exAdminEmployeeDB : DB :=
  { complaints := [], blocked_users := [],
    employees := [{ user_id := some 1, username := "boss",
                    fio := some "A", position := some "p", rank := some "r",
                    nickname := some "n", registered := true }],
    complaint_messages := [], next_id := 1 }

/-- A pending complaint from submitter 5. -/
def exPendingC : Complaint :=
  { user_id := 5, username := some "u5", fio := "f", officer_info := "o",
    violation := "v", media_file_id := none, media_type := none,
    status := "pending", accepted_by := none }

/-- A database holding the pending complaint `exPendingC` as complaint 1,
plus a registered employee bound to principal 2. -/
def exPendingDB : DB :=
  { complaints := [(1, exPendingC)], blocked_users := [],
    employees := [{ user_id := some 2, username := "emp",
                    fio := some "E", position := some "p", rank := some "r",
                    nickname := some "n", registered := true }],
    complaint_messages := [], next_id := 2 }

/-- A directory with the unregistered handle `ivanov` already bound to
principal 100. -/
def exBoundDB : DB :=
  { complaints := [], blocked_users := [],
    employees := [{ user_id := some 100, username := "ivanov", fio := none,
                    position := none, rank := none, nickname := none,
                    registered := false }],
    complaint_messages := [], next_id := 1 }

/-- A database whose block list holds principal 7. -/
def exBlockedDB : DB :=
  { complaints := [], blocked_users := [{ user_id := 7, username := some "u7" }],
    employees := [], complaint_messages := [], next_id := 1 }

/-- A directory whose only employee, `ivanov`, is fully registered and
bound to principal 100 — so it contains no unregistered employee at all. -/
def exRegisteredDB : DB :=
  { complaints := [], blocked_users := [],
    employees := [{ user_id := some 100, username := "ivanov",
                    fio := some "Old", position := some "OP",
                    rank := some "OR", nickname := some "ON",
                    registered := true }],
    complaint_messages := [], next_id := 1 }

theorem broadcast_loop_eq_successRows (deliver : Int → Option Nat) (cid : Nat)
    (recipients : List Int) :
    broadcast_loop deliver cid recipients = successRows deliver cid recipients := by
  induction recipients with
  | nil => rfl
  | cons rid rest ih =>
    simp only [broadcast_loop, successRows, List.filterMap_cons]
    cases h : deliver rid with
    | none => simpa [h, successRows] using ih
    | some mid => simpa [h, Option.map_some, successRows] using ih

theorem retract_loop_map_fst (edit : Int → Nat → Bool)
    (refs : List (Int × Nat)) :
    (retract_loop edit refs).map Prod.fst = refs := by
  induction refs with
  | nil => rfl
  | cons r rs ih => simp [retract_loop, ih]

/-- C5: Broadcast persists exactly the successful deliveries.  The persisted
rows after the call are the prior rows followed by one row per successful
delivery, in recipient order; when the database held no rows for the
complaint, the rows for it afterwards are exactly the successes; the number
of successes is at most the number of recipients; and a failed delivery is
skipped without stopping the loop, so the remaining recipients are still
attempted. -/
theorem broadcast_persists_exactly_successes (deliver : Int → Option Nat)
    (cid : Nat) (recipients : List Int) (db : DB)
    (hempty : db.complaint_messages.filter (fun r => r.1 == cid) = []) :
    (send_complaint_to_all deliver cid recipients db).complaint_messages
      = db.complaint_messages ++ successRows deliver cid recipients ∧
    ((send_complaint_to_all deliver cid recipients db).complaint_messages.filter
        (fun r => r.1 == cid))
      = successRows deliver cid recipients ∧
    (successRows deliver cid recipients).length ≤ recipients.length ∧
    (∀ r rest, deliver r = none →
      broadcast_loop deliver cid (r :: rest) = broadcast_loop deliver cid rest) := by
  refine ⟨?_, ?_, ?_, ?_⟩
  · simp [send_complaint_to_all, broadcast_loop_eq_successRows]
  · have hall : ∀ a ∈ successRows deliver cid recipients,
        (a.1 == cid) = true := by
      intro a ha
      simp only [successRows, List.mem_filterMap] at ha
      obtain ⟨rid, _, hmap⟩ := ha
      rw [Option.map_eq_some'] at hmap
      obtain ⟨m, _, rfl⟩ := hmap
      simp
    simp [send_complaint_to_all, broadcast_loop_eq_successRows,
      List.filter_append, hempty, List.filter_eq_self.mpr hall]
  · exact List.length_filterMap_le _ _
  · intro r rest h
    simp [broadcast_loop, h]

/-- Witness for C5 at a concrete broadcast where the second of three
deliveries fails: exactly the two successes are persisted. -/
theorem broadcast_persists_exactly_successes_witness :
    (send_complaint_to_all
        (fun rid => if rid == 2 then none else some 90) 4 [1, 2, 3]
        initDB).complaint_messages
      = [(4, 1, 90), (4, 3, 90)] := by
  have h := broadcast_persists_exactly_successes
    (fun rid => if rid == 2 then none else some 90) 4 [1, 2, 3] initDB (by decide)
  rw [h.1]
  decide

theorem statusInv_congr {db db' : DB} (h : db'.complaints = db.complaints)
    (hinv : statusInv db) : statusInv db' := by
  intro p hp
  rw [h] at hp
  exact hinv p hp

theorem insertOrIgnoreBlocked_complaints (db : DB) (uid : Int)
    (uname : Option String) :
    (insertOrIgnoreBlocked db uid uname).complaints = db.complaints := by
  unfold insertOrIgnoreBlocked
  split <;> rfl

theorem cmd_start_link_complaints (admin uid : Int) (username : String)
    (db : DB) :
    (cmd_start_link admin uid username db).complaints = db.complaints := by
  unfold cmd_start_link
  repeat' split
  all_goals rfl

theorem cmd_register_start_complaints (admin uid : Int) (username : String)
    (db : DB) :
    (cmd_register_start admin uid username db).1.complaints = db.complaints := by
  unfold cmd_register_start
  repeat' split
  all_goals rfl

theorem process_add_employee_complaints (admin actor : Int)
    (username : String) (db : DB) :
    (process_add_employee admin actor username db).1.complaints
      = db.complaints := by
  unfold process_add_employee
  repeat' split
  all_goals rfl

theorem delete_employee_complaints (admin actor : Int) (username : String)
    (db : DB) :
    (delete_employee admin actor username db).complaints = db.complaints := by
  unfold delete_employee
  split <;> rfl

theorem unblock_user_complaints (admin actor uid : Int) (db : DB) :
    (unblock_user admin actor uid db).complaints = db.complaints := by
  unfold unblock_user
  split <;> rfl

theorem statusInv_update_terminal (db : DB) (cid : Nat) (s : String)
    (actor : Int)
    (hs : s = "accepted" ∨ s = "rejected" ∨ s = "blocked")
    (h : statusInv db) :
    statusInv (updateComplaint db cid
      (fun x => { x with status := s, accepted_by := some actor })) := by
  have hsp : s ≠ "pending" := by rcases hs with rfl | rfl | rfl <;> decide
  intro p hp
  simp only [updateComplaint, List.mem_map] at hp
  obtain ⟨q, hq, rfl⟩ := hp
  by_cases hk : (q.1 == cid) = true
  · simp only [hk, if_true]
    exact ⟨Or.inr hs, fun hpend => absurd hpend hsp, fun _ => by simp⟩
  · simp only [hk, if_false]
    exact h q hq

theorem statusInv_submit (uid : Int) (username : Option String)
    (d : ComplaintData) (media : Option (String × String)) (db : DB)
    (h : statusInv db) :
    statusInv (submit_complaint uid username d media db).1 := by
  intro p hp
  simp only [submit_complaint, List.mem_append, List.mem_singleton] at hp
  rcases hp with hp | rfl
  · exact h p hp
  · exact ⟨Or.inl rfl, fun _ => rfl, fun hne => absurd rfl hne⟩

theorem statusInv_accept (admin actor : Int) (cid : Nat) (db : DB)
    (h : statusInv db) :
    statusInv (accept_complaint admin actor cid db).1 := by
  unfold accept_complaint
  split
  · exact h
  · split
    · exact h
    · split
      · exact h
      · exact statusInv_update_terminal db cid "accepted" actor
          (Or.inl rfl) h

theorem statusInv_reject (admin actor : Int) (cid : Nat) (reason : String)
    (db : DB) (h : statusInv db) :
    statusInv (reject_reason admin actor cid reason db).1 := by
  unfold reject_reason
  split
  · exact h
  · split
    · exact h
    · split
      · exact h
      · exact statusInv_update_terminal db cid "rejected" actor
          (Or.inr (Or.inl rfl)) h

theorem statusInv_block (admin actor : Int) (cid : Nat) (db : DB)
    (h : statusInv db) :
    statusInv (block_user_callback admin actor cid db).1 := by
  unfold block_user_callback
  split
  · exact h
  · split
    · exact h
    · split
      · exact h
      · next c _ _ =>
        exact statusInv_update_terminal _ cid "blocked" actor
          (Or.inr (Or.inr rfl))
          (statusInv_congr
            (insertOrIgnoreBlocked_complaints db c.user_id c.username) h)

/-- C1: at every reachable database every complaint row's status is one of
`pending`, `accepted`, `rejected`, `blocked` (exactly one, the strings being
distinct), the resolver is null exactly while pending and set once terminal
(the terminal transition writes both in the same UPDATE); and for a
complaint whose status is no longer pending, each of accept, reject and
block leaves the database unchanged and, for a staff actor, answers with the
already-resolved outcome. -/
theorem complaint_lifecycle_invariant (admin : Int) :
    (∀ db, Reachable admin db → statusInv db) ∧
    (∀ actor cid reason c db, lookupComplaint db cid = some c →
      c.status ≠ "pending" →
      (accept_complaint admin actor cid db).1 = db ∧
      (reject_reason admin actor cid reason db).1 = db ∧
      (block_user_callback admin actor cid db).1 = db ∧
      (is_staff admin db actor = true →
        (accept_complaint admin actor cid db).2
            = ResolveOutcome.alreadyResolved ∧
        (reject_reason admin actor cid reason db).2
            = RejectOutcome.alreadyProcessed ∧
        (block_user_callback admin actor cid db).2
            = ResolveOutcome.alreadyResolved)) := by
  constructor
  · intro db hr
    induction hr with
    | init => intro p hp; simp [initDB] at hp
    | step _ hs ih =>
      cases hs with
      | submit uid username d media db => exact statusInv_submit _ _ _ _ _ ih
      | accept actor cid db => exact statusInv_accept _ _ _ _ ih
      | reject actor cid reason db => exact statusInv_reject _ _ _ _ _ ih
      | block actor cid db => exact statusInv_block _ _ _ _ ih
      | startLink uid username db =>
        exact statusInv_congr (cmd_start_link_complaints _ _ _ _) ih
      | registerStart uid username db =>
        exact statusInv_congr (cmd_register_start_complaints _ _ _ _) ih
      | regNick uid username p db => exact statusInv_congr rfl ih
      | addEmp actor username db =>
        exact statusInv_congr (process_add_employee_complaints _ _ _ _) ih
      | delEmp actor username db =>
        exact statusInv_congr (delete_employee_complaints _ _ _ _) ih
      | unblock actor uid db =>
        exact statusInv_congr (unblock_user_complaints _ _ _ _) ih
      | broadcast deliver cid recipients db => exact statusInv_congr rfl ih
  · intro actor cid reason c db hc hnp
    have hbne : (c.status != "pending") = true := by
      simpa [bne_iff_ne] using hnp
    refine ⟨?_, ?_, ?_, ?_⟩
    · unfold accept_complaint
      split
      · rfl
      · rw [hc]
        simp [hbne]
    · unfold reject_reason
      split
      · rfl
      · rw [hc]
        simp [hbne]
    · unfold block_user_callback
      split
      · rfl
      · rw [hc]
        simp [hbne]
    · intro hstaff
      have hstaff' : (!is_staff admin db actor) = false := by simp [hstaff]
      refine ⟨?_, ?_, ?_⟩
      · unfold accept_complaint
        rw [hstaff', hc]
        simp [hbne]
      · unfold reject_reason
        rw [hstaff', hc]
        simp [hbne]
      · unfold block_user_callback
        rw [hstaff', hc]
        simp [hbne]

/-- Witness for C1: the invariant at the reachable initial database, and a
second accept attempt on an already-accepted concrete complaint leaving the
database unchanged. -/
theorem complaint_lifecycle_invariant_witness :
    statusInv initDB ∧ (accept_complaint 1 9 1 exResolvedDB).1 = exResolvedDB :=
  ⟨(complaint_lifecycle_invariant 1).1 initDB Reachable.init,
   ((complaint_lifecycle_invariant 1).2 9 1 ""
      { user_id := 5, username := some "u", fio := "f", officer_info := "o",
        violation := "v", media_file_id := none, media_type := none,
        status := "accepted", accepted_by := some 9 }
      exResolvedDB (by decide) (by decide)).1⟩

/-- C6: Retraction attempts an edit on exactly the persisted references for
the complaint: the attempted references are the `(chat_id, message_id)` pairs
stored for that complaint id, in order; the attempts made do not depend on
the edit outcomes (so one failing edit never prevents the rest, and no edit
failure escapes: the function is total and only records outcomes). -/
theorem retract_attempts_exactly_persisted (edit : Int → Nat → Bool)
    (cid : Nat) (db : DB) :
    (invalidate_complaint_messages edit cid db).map Prod.fst
      = (db.complaint_messages.filter (fun r => r.1 == cid)).map (fun r => r.2) ∧
    (∀ edit2, (invalidate_complaint_messages edit2 cid db).map Prod.fst
      = (invalidate_complaint_messages edit cid db).map Prod.fst) := by
  refine ⟨retract_loop_map_fst _ _, ?_⟩
  intro edit2
  unfold invalidate_complaint_messages
  rw [retract_loop_map_fst, retract_loop_map_fst]

theorem accept_outcome_blocklist (admin actor : Int) (cid : Nat) (db : DB)
    (bl : List BlockedUser) :
    (accept_complaint admin actor cid { db with blocked_users := bl }).2
      = (accept_complaint admin actor cid db).2 := by
  unfold accept_complaint
  rw [show is_staff admin { db with blocked_users := bl } actor
        = is_staff admin db actor from rfl,
      show lookupComplaint { db with blocked_users := bl } cid
        = lookupComplaint db cid from rfl]
  cases hst : is_staff admin db actor
  · rfl
  · cases hlc : lookupComplaint db cid with
    | none => rfl
    | some c =>
      by_cases hsp : (c.status != "pending") = true
      · simp [hsp]
      · simp [hsp]

theorem reject_outcome_blocklist (admin actor : Int) (cid : Nat)
    (reason : String) (db : DB) (bl : List BlockedUser) :
    (reject_reason admin actor cid reason { db with blocked_users := bl }).2
      = (reject_reason admin actor cid reason db).2 := by
  unfold reject_reason
  rw [show is_staff admin { db with blocked_users := bl } actor
        = is_staff admin db actor from rfl,
      show lookupComplaint { db with blocked_users := bl } cid
        = lookupComplaint db cid from rfl]
  cases hst : is_staff admin db actor
  · rfl
  · cases hlc : lookupComplaint db cid with
    | none => rfl
    | some c =>
      by_cases hsp : (c.status != "pending") = true
      · simp [hsp]
      · simp [hsp]

theorem block_outcome_blocklist (admin actor : Int) (cid : Nat) (db : DB)
    (bl : List BlockedUser) :
    (block_user_callback admin actor cid { db with blocked_users := bl }).2
      = (block_user_callback admin actor cid db).2 := by
  unfold block_user_callback
  rw [show is_staff admin { db with blocked_users := bl } actor
        = is_staff admin db actor from rfl,
      show lookupComplaint { db with blocked_users := bl } cid
        = lookupComplaint db cid from rfl]
  cases hst : is_staff admin db actor
  · rfl
  · cases hlc : lookupComplaint db cid with
    | none => rfl
    | some c =>
      by_cases hsp : (c.status != "pending") = true
      · simp [hsp]
      · simp [hsp]

/-- C9: staff authorization never reads the block list — replacing the
`blocked_users` table by anything leaves `is_staff` unchanged, `is_staff`
equals the explicit formula over the administrator id and the registered
employees only, and a (possibly blocked) staff member gets the same
complaint listing and the same accept/reject/block outcomes whatever the
block list holds. -/
theorem staff_check_ignores_blocklist (admin uid : Int) (db : DB)
    (bl : List BlockedUser) :
    is_staff admin { db with blocked_users := bl } uid
        = is_staff admin db uid ∧
    is_staff admin db uid
        = (uid == admin ||
           db.employees.any (fun e => e.user_id == some uid && e.registered)) ∧
    cmd_complaints admin uid { db with blocked_users := bl }
        = cmd_complaints admin uid db ∧
    (∀ cid, (accept_complaint admin uid cid { db with blocked_users := bl }).2
        = (accept_complaint admin uid cid db).2) ∧
    (∀ cid reason,
      (reject_reason admin uid cid reason { db with blocked_users := bl }).2
        = (reject_reason admin uid cid reason db).2) ∧
    (∀ cid, (block_user_callback admin uid cid
          { db with blocked_users := bl }).2
        = (block_user_callback admin uid cid db).2) :=
  ⟨rfl, rfl, rfl,
   fun cid => accept_outcome_blocklist admin uid cid db bl,
   fun cid reason => reject_outcome_blocklist admin uid cid reason db bl,
   fun cid => block_outcome_blocklist admin uid cid db bl⟩

theorem recipient_rows_all_succeed (cid : Nat) (mid : Nat) (l : List Int) :
    broadcast_loop (fun _ => some mid) cid l
      = l.map (fun rid => (cid, rid, mid)) := by
  induction l with
  | nil => rfl
  | cons r rs ih => simp [broadcast_loop, ih]

/-- C10: the recipient list starts with the administrator id and is not
deduplicated: when some registered employee row is bound to the
administrator's own (nonzero) id, that id occurs at least twice in the
list, and an all-successful broadcast to the list persists at least two
message-reference rows whose recipient is the administrator. -/
theorem recipients_not_deduplicated (admin : Int) (db : DB) (e : Employee)
    (mid cid : Nat) (h1 : e ∈ db.employees) (h2 : e.registered = true)
    (h3 : e.user_id = some admin) (h4 : admin ≠ 0) :
    (get_all_recipient_ids admin db).head? = some admin ∧
    2 ≤ (get_all_recipient_ids admin db).count admin ∧
    2 ≤ ((send_complaint_to_all (fun _ => some mid) cid
            (get_all_recipient_ids admin db)
            { db with complaint_messages := [] }).complaint_messages.filter
          (fun r => r.2.1 == admin)).length := by
  have hcount : 2 ≤ (get_all_recipient_ids admin db).count admin := by
    have hmem : admin ∈ db.employees.filterMap (fun x =>
        match x.user_id with
        | some v => if x.registered && v != 0 then some v else none
        | none => none) := by
      refine List.mem_filterMap.mpr ⟨e, h1, ?_⟩
      rw [h3]
      simp [h2, bne_iff_ne, h4]
    have hpos : 0 < (db.employees.filterMap (fun x =>
        match x.user_id with
        | some v => if x.registered && v != 0 then some v else none
        | none => none)).count admin := List.count_pos_iff.mpr hmem
    unfold get_all_recipient_ids
    rw [List.count_cons_self]
    omega
  refine ⟨rfl, hcount, ?_⟩
  have hrows : (send_complaint_to_all (fun _ => some mid) cid
      (get_all_recipient_ids admin db)
      { db with complaint_messages := [] }).complaint_messages
      = (get_all_recipient_ids admin db).map (fun rid => (cid, rid, mid)) := by
    simp [send_complaint_to_all, recipient_rows_all_succeed]
  rw [hrows, List.filter_map, List.length_map]
  have hfil : ((fun (r : Nat × Int × Nat) => r.2.1 == admin) ∘
      fun rid => (cid, rid, mid)) = (fun rid => rid == admin) := rfl
  rw [hfil, ← List.countP_eq_length_filter]
  exact hcount

/-- Witness for C10 at the concrete directory `exAdminEmployeeDB`. -/
theorem recipients_not_deduplicated_witness :
    (get_all_recipient_ids 1 exAdminEmployeeDB).head? = some 1 ∧
    2 ≤ (get_all_recipient_ids 1 exAdminEmployeeDB).count 1 ∧
    2 ≤ ((send_complaint_to_all (fun _ => some 7) 3
            (get_all_recipient_ids 1 exAdminEmployeeDB)
            { exAdminEmployeeDB with
                complaint_messages := [] }).complaint_messages.filter
          (fun r => r.2.1 == 1)).length :=
  recipients_not_deduplicated 1 exAdminEmployeeDB
    { user_id := some 1, username := "boss",
      fio := some "A", position := some "p", rank := some "r",
      nickname := some "n", registered := true }
    7 3 (by decide) rfl rfl (by decide)

theorem find_update_key (cid : Nat) (f : Complaint → Complaint)
    (l : List (Nat × Complaint)) :
    ((l.map (fun p => if p.1 == cid then (p.1, f p.2) else p)).find?
        (fun p => p.1 == cid)).map Prod.snd
      = ((l.find? (fun p => p.1 == cid)).map Prod.snd).map f := by
  induction l with
  | nil => rfl
  | cons p ps ih =>
    by_cases h : (p.1 == cid) = true
    · have h' : p.1 = cid := by simpa using h
      subst h'
      simp [List.find?_cons]
    · simp only [List.map_cons, List.find?_cons, h, if_false]
      simpa [h] using ih

theorem lookupComplaint_updateComplaint (db : DB) (cid : Nat)
    (f : Complaint → Complaint) :
    lookupComplaint (updateComplaint db cid f) cid
      = (lookupComplaint db cid).map f := by
  unfold lookupComplaint updateComplaint
  exact find_update_key cid f db.complaints

theorem lookupComplaint_congr {db1 db2 : DB}
    (h : db1.complaints = db2.complaints) (cid : Nat) :
    lookupComplaint db1 cid = lookupComplaint db2 cid := by
  unfold lookupComplaint
  rw [h]

theorem insertOrIgnoreBlocked_employees (db : DB) (uid : Int)
    (uname : Option String) :
    (insertOrIgnoreBlocked db uid uname).employees = db.employees := by
  unfold insertOrIgnoreBlocked
  split <;> rfl

theorem is_staff_congr {db1 db2 : DB} (h : db1.employees = db2.employees)
    (admin uid : Int) : is_staff admin db1 uid = is_staff admin db2 uid := by
  unfold is_staff is_registered_employee
  rw [h]

theorem resolveStep_nonpending (admin actor : Int) (cid : Nat)
    (a : StaffAction) (c : Complaint) (db : DB)
    (hc : lookupComplaint db cid = some c) (hnp : c.status ≠ "pending")
    (hstaff : is_staff admin db actor = true) :
    resolveStep admin actor cid a db = (db, ResolveOutcome.alreadyResolved) := by
  have hbne : (c.status != "pending") = true := by
    simpa [bne_iff_ne] using hnp
  have hstaff' : (!is_staff admin db actor) = false := by simp [hstaff]
  cases a with
  | accept =>
    unfold resolveStep accept_complaint
    rw [hstaff', hc]
    simp [hbne]
  | reject r =>
    unfold resolveStep reject_reason
    rw [hstaff', hc]
    simp [hbne]
  | block =>
    unfold resolveStep block_user_callback
    rw [hstaff', hc]
    simp [hbne]

theorem resolveStep_pending (admin actor : Int) (cid : Nat) (a : StaffAction)
    (c : Complaint) (db : DB)
    (hc : lookupComplaint db cid = some c) (hp : c.status = "pending")
    (hstaff : is_staff admin db actor = true) :
    (resolveStep admin actor cid a db).2 = ResolveOutcome.resolved c.user_id ∧
    (resolveStep admin actor cid a db).1.employees = db.employees ∧
    ∃ c', lookupComplaint (resolveStep admin actor cid a db).1 cid = some c' ∧
      c'.status ≠ "pending" ∧ c'.accepted_by = some actor := by
  have hbne : (c.status != "pending") = false := by simp [hp]
  have hstaff' : (!is_staff admin db actor) = false := by simp [hstaff]
  cases a with
  | accept =>
    have hred : resolveStep admin actor cid StaffAction.accept db
        = (updateComplaint db cid (fun x =>
             { x with status := "accepted", accepted_by := some actor }),
           ResolveOutcome.resolved c.user_id) := by
      unfold resolveStep accept_complaint
      rw [hstaff', hc]
      simp [hbne]
    rw [hred]
    refine ⟨rfl, rfl, ?_⟩
    rw [lookupComplaint_updateComplaint, hc]
    exact ⟨_, rfl, by simp, rfl⟩
  | reject r =>
    have hred : resolveStep admin actor cid (StaffAction.reject r) db
        = (updateComplaint db cid (fun x =>
             { x with status := "rejected", accepted_by := some actor }),
           ResolveOutcome.resolved c.user_id) := by
      unfold resolveStep reject_reason
      rw [hstaff', hc]
      simp [hbne]
    rw [hred]
    refine ⟨rfl, rfl, ?_⟩
    rw [lookupComplaint_updateComplaint, hc]
    exact ⟨_, rfl, by simp, rfl⟩
  | block =>
    have hred : resolveStep admin actor cid StaffAction.block db
        = (updateComplaint (insertOrIgnoreBlocked db c.user_id c.username) cid
             (fun x => { x with status := "blocked", accepted_by := some actor }),
           ResolveOutcome.resolved c.user_id) := by
      unfold resolveStep block_user_callback
      rw [hstaff', hc]
      simp [hbne]
    rw [hred]
    refine ⟨rfl, insertOrIgnoreBlocked_employees db c.user_id c.username, ?_⟩
    rw [lookupComplaint_updateComplaint,
        lookupComplaint_congr
          (insertOrIgnoreBlocked_complaints db c.user_id c.username) cid, hc]
    exact ⟨_, rfl, by simp, rfl⟩

theorem runResolves_nonpending (admin : Int) (cid : Nat)
    (attempts : List (Int × StaffAction)) (c : Complaint) (db : DB)
    (hc : lookupComplaint db cid = some c) (hnp : c.status ≠ "pending")
    (hstaff : ∀ x ∈ attempts, is_staff admin db x.1 = true) :
    runResolves admin cid attempts db
      = (db, List.replicate attempts.length ResolveOutcome.alreadyResolved) := by
  induction attempts with
  | nil => rfl
  | cons x rest ih =>
    obtain ⟨actor, a⟩ := x
    have h1 := resolveStep_nonpending admin actor cid a c db hc hnp
      (hstaff (actor, a) (by simp))
    have h2 := ih (fun y hy => hstaff y (List.mem_cons_of_mem _ hy))
    simp [runResolves, h1, h2, List.replicate_succ]

/-- C2 counterexample: the resolution write is not a conditional update.
At `exPendingDB` two staff actors (1 and 2) each pass the pending check at
the same initial state; then actor 1's write lands, marking the complaint
accepted with resolver 1 — and actor 2's subsequent write still rewrites
the row (resolver becomes 2) even though the stored status is no longer
`pending`, because the UPDATE carries no status condition.  So under an
interleaving of the read and write phases both attempts succeed, refuting
both the exactly-one-success claim and the genuine-atomic-conditional-update
claim. -/
theorem resolve_not_atomic_counterexample :
    is_staff 1 exPendingDB 1 = true ∧
    is_staff 1 exPendingDB 2 = true ∧
    (acceptReadCheck exPendingDB 1).map Prod.snd = some "pending" ∧
    (lookupComplaint (acceptWrite 1 1 exPendingDB) 1).map
        (fun c => (c.status, c.accepted_by)) = some ("accepted", some 1) ∧
    (acceptReadCheck (acceptWrite 1 1 exPendingDB) 1).map Prod.snd
        = some "accepted" ∧
    acceptWrite 2 1 (acceptWrite 1 1 exPendingDB) ≠ acceptWrite 1 1 exPendingDB ∧
    (lookupComplaint (acceptWrite 2 1 (acceptWrite 1 1 exPendingDB)) 1).map
        (fun c => (c.status, c.accepted_by)) = some ("accepted", some 2) := by
  decide

/-- C2 amended: the code checks the status and writes in separate
application-level steps, with an unconditional UPDATE; the
exactly-one-success race property holds only when each resolve attempt runs
to completion without interleaving.  Then, for any non-empty sequence of
resolve attempts by staff actors on a pending complaint, the first attempt
succeeds (writing the terminal status and its actor as resolver) and every
later attempt is answered with the already-resolved outcome. -/
theorem resolve_exactly_once_sequential (admin : Int) (cid : Nat)
    (c : Complaint) (db : DB) (first : Int × StaffAction)
    (rest : List (Int × StaffAction))
    (hc : lookupComplaint db cid = some c) (hp : c.status = "pending")
    (hstaff : ∀ x ∈ first :: rest, is_staff admin db x.1 = true) :
    (runResolves admin cid (first :: rest) db).2
      = ResolveOutcome.resolved c.user_id ::
        List.replicate rest.length ResolveOutcome.alreadyResolved ∧
    ∃ c', lookupComplaint (runResolves admin cid (first :: rest) db).1 cid
        = some c' ∧ c'.status ≠ "pending" ∧ c'.accepted_by = some first.1 := by
  obtain ⟨actor, a⟩ := first
  obtain ⟨ho, hemp, c', hc', hnp', hres⟩ :=
    resolveStep_pending admin actor cid a c db hc hp
      (hstaff (actor, a) (by simp))
  have hrest := runResolves_nonpending admin cid rest c'
      (resolveStep admin actor cid a db).1 hc' hnp'
      (fun y hy => by
        rw [is_staff_congr hemp]
        exact hstaff y (List.mem_cons_of_mem _ hy))
  have hrun : runResolves admin cid ((actor, a) :: rest) db
      = ((resolveStep admin actor cid a db).1,
         ResolveOutcome.resolved c.user_id ::
           List.replicate rest.length ResolveOutcome.alreadyResolved) := by
    simp [runResolves, hrest, ho]
  rw [hrun]
  exact ⟨rfl, c', hc', hnp', hres⟩

/-- Witness for C2 (amended) at `exPendingDB`: the admin's accept succeeds,
the registered employee's block attempt gets the already-resolved answer. -/
theorem resolve_exactly_once_sequential_witness :
    (runResolves 1 1 [(1, StaffAction.accept), (2, StaffAction.block)]
        exPendingDB).2
      = [ResolveOutcome.resolved 5, ResolveOutcome.alreadyResolved] := by
  have h := resolve_exactly_once_sequential 1 1 exPendingC exPendingDB
    (1, StaffAction.accept) [(2, StaffAction.block)]
    (by decide) rfl (by decide)
  simpa using h.1

/-- C4: the block check is missing on the `/skip` finalization path.  At
`exBlockedDB` principal 7 is blocked, so starting the form, advancing a
step, and finalizing with attached media are all rejected with no row
inserted — but finalizing with `/skip` inserts a new pending complaint row
for the blocked principal (which is then broadcast).  This contradicts the
blocking invariant the code enforces on every sibling handler. -/
theorem skip_media_bypasses_block :
    is_blocked exBlockedDB 7 = true ∧
    cmd_complaint_allows exBlockedDB 7 = false ∧
    form_step_allows exBlockedDB 7 = false ∧
    (process_media 7 (some "u7") ⟨"f", "o", "v"⟩ ("fid", "photo")
        exBlockedDB).1 = exBlockedDB ∧
    (skip_media 7 (some "u7") ⟨"f", "o", "v"⟩ exBlockedDB).1.complaints.length
        = exBlockedDB.complaints.length + 1 ∧
    (lookupComplaint (skip_media 7 (some "u7") ⟨"f", "o", "v"⟩ exBlockedDB).1
        1).map (fun c => (c.user_id, c.status)) = some (7, "pending") := by
  decide

/-- C8 counterexample: a reject with an empty reason is not refused.  At
`exPendingDB` the admin rejects complaint 1 with reason `""`: the operation
reports success carrying the empty reason, and the row is rewritten to
status `rejected` with the resolver set — there is no `InvalidReason`
failure and the row does not stay unchanged. -/
theorem reject_empty_reason_counterexample :
    (reject_reason 1 1 1 "" exPendingDB).2 = RejectOutcome.rejected 5 "" ∧
    (lookupComplaint (reject_reason 1 1 1 "" exPendingDB).1 1).map
        (fun c => (c.status, c.accepted_by)) = some ("rejected", some 1) ∧
    (reject_reason 1 1 1 "" exPendingDB).1 ≠ exPendingDB := by
  decide

/-- C8 amended: the reject handler performs no validation of the reason
text.  For a staff actor and a pending complaint, a reject with any reason —
the empty string included — marks the complaint rejected with the actor as
resolver, and the outcome carries the submitter id together with the reason
exactly as given, to be forwarded to the submitter. -/
theorem reject_accepts_any_reason (admin actor : Int) (cid : Nat)
    (reason : String) (c : Complaint) (db : DB)
    (hstaff : is_staff admin db actor = true)
    (hc : lookupComplaint db cid = some c) (hp : c.status = "pending") :
    reject_reason admin actor cid reason db
      = (updateComplaint db cid (fun x =>
           { x with status := "rejected", accepted_by := some actor }),
         RejectOutcome.rejected c.user_id reason) ∧
    (lookupComplaint (reject_reason admin actor cid reason db).1 cid).map
        (fun x => (x.status, x.accepted_by)) = some ("rejected", some actor) := by
  have hbne : (c.status != "pending") = false := by simp [hp]
  have hstaff' : (!is_staff admin db actor) = false := by simp [hstaff]
  have hred : reject_reason admin actor cid reason db
      = (updateComplaint db cid (fun x =>
           { x with status := "rejected", accepted_by := some actor }),
         RejectOutcome.rejected c.user_id reason) := by
    unfold reject_reason
    rw [hstaff', hc]
    simp [hbne]
  refine ⟨hred, ?_⟩
  rw [hred, lookupComplaint_updateComplaint, hc]
  rfl

/-- Witness for C8 (amended) with a concretely empty reason. -/
theorem reject_accepts_any_reason_witness :
    (reject_reason 1 1 1 "" exPendingDB).2
        = RejectOutcome.rejected exPendingC.user_id "" ∧
    (lookupComplaint (reject_reason 1 1 1 "" exPendingDB).1 1).map
        (fun x => (x.status, x.accepted_by)) = some ("rejected", some 1) := by
  have h := reject_accepts_any_reason 1 1 1 "" exPendingC exPendingDB
    (by decide) (by decide) rfl
  exact ⟨by rw [h.1], h.2⟩

theorem reg_nickname_sets (uid : Int) (username : String) (p : Profile)
    (db : DB) :
    ∀ e ∈ (reg_nickname uid username p db).employees,
      (e.username = username ∨ e.user_id = some uid) →
      e.fio = some p.fio ∧ e.position = some p.position ∧
      e.rank = some p.rank ∧ e.nickname = some p.nickname ∧
      e.registered = true ∧ e.user_id = some uid := by
  intro e he hm
  simp only [reg_nickname, List.mem_map] at he
  obtain ⟨e0, _, rfl⟩ := he
  by_cases hc : (e0.username == username || e0.user_id == some uid) = true
  · simp [hc]
  · simp only [hc, Bool.false_eq_true, if_false] at hm ⊢
    exfalso
    rcases hm with hm | hm
    · exact hc (by simp [hm])
    · exact hc (by simp [hm])

/-- C7 counterexample: the registration entry check matches any employee
row, registered or not.  In `exRegisteredDB` every employee is registered,
so the acting principal 100 (handle `ivanov`) matches no unregistered
employee — yet completing registration succeeds and mutates the employee
record (the profile fields are overwritten), instead of failing with
NotFound and mutating nothing. -/
theorem completeRegistration_counterexample :
    (∀ e ∈ exRegisteredDB.employees, e.registered = true) ∧
    (completeRegistration 1 100 "ivanov" ⟨"New", "NP", "NR", "NN"⟩
        exRegisteredDB).2 = true ∧
    (completeRegistration 1 100 "ivanov" ⟨"New", "NP", "NR", "NN"⟩
        exRegisteredDB).1 ≠ exRegisteredDB := by
  decide

/-- C7 amended: completing registration fails — mutating nothing — exactly
when the acting principal matches no employee row at all (neither by handle
nor by a previously bound principal ID; registered rows also count as
matches, so an already-registered employee can re-register).  On success it
sets all profile fields, marks the employee registered, and binds the
acting principal's ID on every matching row. -/
theorem completeRegistration_amended (admin uid : Int) (username : String)
    (p : Profile) (db : DB) :
    ((db.employees.any (fun e =>
        e.username == username || e.user_id == some uid)) = false →
      completeRegistration admin uid username p db = (db, false)) ∧
    (uid = admin → completeRegistration admin uid username p db = (db, false)) ∧
    (uid ≠ admin →
      (db.employees.any (fun e =>
        e.username == username || e.user_id == some uid)) = true →
      (completeRegistration admin uid username p db).2 = true ∧
      ∀ e ∈ (completeRegistration admin uid username p db).1.employees,
        (e.username = username ∨ e.user_id = some uid) →
        e.fio = some p.fio ∧ e.position = some p.position ∧
        e.rank = some p.rank ∧ e.nickname = some p.nickname ∧
        e.registered = true ∧ e.user_id = some uid) := by
  refine ⟨?_, ?_, ?_⟩
  · intro hany
    by_cases h1 : (uid == admin) = true
    · simp [completeRegistration, cmd_register_start, h1]
    · simp [completeRegistration, cmd_register_start, h1, hany]
  · intro h
    have h1 : (uid == admin) = true := by simp [h]
    simp [completeRegistration, cmd_register_start, h1]
  · intro hne hany
    have h1 : (uid == admin) = false := by simp [hne]
    have h2 : (cmd_register_start admin uid username db).2 = true := by
      unfold cmd_register_start
      simp [h1, hany]
    have hrun : completeRegistration admin uid username p db
        = (reg_nickname uid username p
            (cmd_register_start admin uid username db).1, true) := by
      unfold completeRegistration
      simp [h2]
    rw [hrun]
    exact ⟨rfl, reg_nickname_sets uid username p _⟩

/-- Witness for C7 (amended): an unmatched principal is turned away with
nothing mutated, and a matched unregistered handle completes registration. -/
theorem completeRegistration_amended_witness :
    completeRegistration 1 5 "ghost" ⟨"F", "P", "R", "N"⟩ initDB
        = (initDB, false) ∧
    (completeRegistration 1 100 "ivanov" ⟨"F", "P", "R", "N"⟩ exBoundDB).2
        = true :=
  ⟨(completeRegistration_amended 1 5 "ghost" ⟨"F", "P", "R", "N"⟩
      initDB).1 (by decide),
   ((completeRegistration_amended 1 100 "ivanov" ⟨"F", "P", "R", "N"⟩
      exBoundDB).2.2 (by decide) (by decide)).1⟩

theorem cmd_start_link_bound (admin uid : Int) (username : String) (db : DB)
    (e : Employee)
    (hf : db.employees.find? (fun x => x.username == username) = some e)
    (ht : truthy e.user_id = true) :
    cmd_start_link admin uid username db = db := by
  unfold cmd_start_link
  by_cases h1 : (uid == admin) = true
  · simp [h1]
  · by_cases h2 : is_blocked db uid = true
    · simp [h1, h2]
    · by_cases h3 : (username == "") = true
      · simp [h1, h2, h3]
      · simp [h1, h2, h3, hf, ht]

theorem cmd_start_link_comp_username (uid : Int) (username : String) :
    ((fun x : Employee => x.username == username) ∘ (fun x : Employee =>
      if x.username == username then { x with user_id := some uid } else x))
      = (fun x : Employee => x.username == username) := by
  funext x
  by_cases hx : (x.username == username) = true
  · have hx' : x.username = username := by simpa using hx
    simp [hx, hx']
  · have hx' : ¬x.username = username := by simpa using hx
    simp [hx, hx']

theorem cmd_start_link_idem (admin uid : Int) (username : String) (db : DB)
    (huid : uid ≠ 0) :
    cmd_start_link admin uid username (cmd_start_link admin uid username db)
      = cmd_start_link admin uid username db := by
  by_cases h1 : (uid == admin) = true
  · have h : ∀ x : DB, cmd_start_link admin uid username x = x := fun x => by
      unfold cmd_start_link; simp [h1]
    rw [h, h]
  · by_cases h3 : (username == "") = true
    · have h : ∀ x : DB, cmd_start_link admin uid username x = x := fun x => by
        unfold cmd_start_link
        by_cases h2 : is_blocked x uid = true
        · simp [h1, h2]
        · simp [h1, h2, h3]
      rw [h, h]
    · by_cases h2 : is_blocked db uid = true
      · have hfirst : cmd_start_link admin uid username db = db := by
          unfold cmd_start_link; simp [h1, h2]
        rw [hfirst, hfirst]
      · cases hf : db.employees.find? (fun x => x.username == username) with
        | none =>
          have hfirst : cmd_start_link admin uid username db = db := by
            unfold cmd_start_link; simp [h1, h2, h3, hf]
          rw [hfirst, hfirst]
        | some e =>
          by_cases ht : truthy e.user_id = true
          · have hfirst := cmd_start_link_bound admin uid username db e hf ht
            rw [hfirst, hfirst]
          · have hfirst : cmd_start_link admin uid username db
                = { db with employees := db.employees.map (fun x =>
                    if x.username == username then { x with user_id := some uid }
                    else x) } := by
              unfold cmd_start_link
              simp [h1, h2, h3, hf, ht]
            rw [hfirst]
            refine cmd_start_link_bound admin uid username _
              { e with user_id := some uid } ?_ ?_
            · show ((db.employees.map (fun x =>
                  if x.username == username then { x with user_id := some uid }
                  else x)).find? (fun x => x.username == username))
                = some { e with user_id := some uid }
              rw [List.find?_map, cmd_start_link_comp_username, hf]
              have he := List.find?_some hf
              have he' : e.username = username := by simpa using he
              simp [he, he']
            · simp [truthy, bne_iff_ne, huid]

theorem cmd_start_link_write_once (admin uid2 : Int) (username : String)
    (db : DB)
    (hbound : ∀ e ∈ db.employees, e.username = username →
      truthy e.user_id = true) :
    cmd_start_link admin uid2 username db = db := by
  cases hf : db.employees.find? (fun x => x.username == username) with
  | none =>
    unfold cmd_start_link
    by_cases h1 : (uid2 == admin) = true
    · simp [h1]
    · by_cases h2 : is_blocked db uid2 = true
      · simp [h1, h2]
      · by_cases h3 : (username == "") = true
        · simp [h1, h2, h3]
        · simp [h1, h2, h3, hf]
  | some e =>
    have he := List.find?_some hf
    have hm : e ∈ db.employees := List.mem_of_find?_eq_some hf
    exact cmd_start_link_bound admin uid2 username db e hf
      (hbound e hm (by simpa using he))

theorem cmd_register_start_write_once (admin uid2 : Int) (username : String)
    (db : DB)
    (hbound : ∀ e ∈ db.employees, e.username = username →
      truthy e.user_id = true) :
    (cmd_register_start admin uid2 username db).1 = db := by
  have hmap : db.employees.map (fun e =>
      if e.username == username && !truthy e.user_id then
        { e with user_id := some uid2 }
      else e) = db.employees := by
    have hcong : ∀ e ∈ db.employees,
        (if e.username == username && !truthy e.user_id then
          { e with user_id := some uid2 } else e) = id e := by
      intro e hme
      by_cases hu : (e.username == username) = true
      · have hb := hbound e hme (by simpa using hu)
        simp [hu, hb]
      · simp [hu]
    rw [List.map_congr_left hcong, List.map_id]
  unfold cmd_register_start
  by_cases h1 : (uid2 == admin) = true
  · rw [if_pos h1]
  · rw [if_neg h1]
    by_cases h2 : (db.employees.any (fun e =>
        e.username == username || e.user_id == some uid2)) = true
    · have h2' : ¬((!db.employees.any (fun e =>
          e.username == username || e.user_id == some uid2)) = true) := by
        simp [h2]
      rw [if_neg h2']
      by_cases h3 : (username != "") = true
      · rw [if_pos h3, hmap]
      · rw [if_neg h3]
    · have h2' : (!db.employees.any (fun e =>
          e.username == username || e.user_id == some uid2)) = true := by
        simp only [Bool.not_eq_true] at h2
        simp [h2]
      rw [if_pos h2']

/-- C3 counterexample: binding is not write-once across all operations.  In
`exBoundDB` the handle `ivanov` is bound to principal 100; principal 200
(whose username is `ivanov`) runs the registration flow, which succeeds and
rebinds the handle to 200 — the final registration UPDATE sets `user_id`
unconditionally. -/
theorem linkPrincipal_rebind_counterexample :
    exBoundDB.employees.map (fun e => e.user_id) = [some 100] ∧
    (completeRegistration 1 200 "ivanov" ⟨"F", "P", "R", "N"⟩ exBoundDB).2
        = true ∧
    ((completeRegistration 1 200 "ivanov" ⟨"F", "P", "R", "N"⟩
        exBoundDB).1.employees.map (fun e => e.user_id)) = [some 200] := by
  decide

/-- C3 amended: the two explicit linking operations — the `/start`
auto-link and the conditional pre-bind in `/register` — are idempotent and
write-once: repeating the `/start` link with the same principal changes
nothing further, and when every row holding the handle is already bound,
both operations leave the directory unchanged for any principal.  However
(counterexample) the final registration step rebinds the handle
unconditionally, so write-once does not extend to completing
registration. -/
theorem linkPrincipal_write_once_start_only (admin uid uid2 : Int)
    (username : String) (db : DB) (huid : uid ≠ 0) :
    cmd_start_link admin uid username (cmd_start_link admin uid username db)
      = cmd_start_link admin uid username db ∧
    ((∀ e ∈ db.employees, e.username = username →
        truthy e.user_id = true) →
      cmd_start_link admin uid2 username db = db ∧
      (cmd_register_start admin uid2 username db).1 = db) :=
  ⟨cmd_start_link_idem admin uid username db huid,
   fun hb => ⟨cmd_start_link_write_once admin uid2 username db hb,
              cmd_register_start_write_once admin uid2 username db hb⟩⟩

/-- Witness for C3 (amended) at `exBoundDB`, whose handle `ivanov` is bound
to principal 100: linking by principal 7 twice equals linking once, and a
link attempt by principal 42 changes nothing. -/
theorem linkPrincipal_write_once_start_only_witness :
    cmd_start_link 1 7 "ivanov" (cmd_start_link 1 7 "ivanov" exBoundDB)
      = cmd_start_link 1 7 "ivanov" exBoundDB ∧
    cmd_start_link 1 42 "ivanov" exBoundDB = exBoundDB := by
  have h := linkPrincipal_write_once_start_only 1 7 42 "ivanov" exBoundDB
    (by decide)
  exact ⟨h.1, (h.2 (by decide)).1⟩

end OsbBot
